import Mathlib

/-!
Verification development for the `python-diagrams-mcp` server
(`src/packages/python-diagrams-mcp/server.py`).

The server exposes one execution primitive, `render_diagram`, which runs
caller-supplied Python source in a fresh temporary working directory, scans
that directory for a produced artifact file by extension priority, and
classifies the outcome; and one request handler branch (`call_tool`, tool
name `diagrams_render`) which validates the request, optionally persists
the artifact under the `/output` root, and shapes the response payload.

This file gives a shallow embedding of those functions and proves the
frozen claims about them.  Python's `exec` is modelled as an uninterpreted
evaluation function supplied by the environment: it either terminates
normally, leaving a list of files in the working directory, or raises one
of the three exception classes the source distinguishes.  Filesystem side
effects of the handler are made explicit in an `Effects` record.
-/

namespace DiagramsMcp

/-- Bytes of a file, one `Nat` per byte (each < 256 in intended use). -/
abbrev Bytes := List Nat

/-- A file in the temporary working directory: name and content. -/
structure FileEntry where
  name : String
  content : Bytes
  deriving DecidableEq, Repr

/-! ### String helpers mirroring the Python operations used by the source

`strContains s pat` models Python's `pat in s`; `strEndsWith s pat` models
`s.endswith(pat)`; `strStartsWith s pat` models `s.startswith(pat)`.
All operate on the character lists of the strings. -/

/-- `startsList l p`: the list `l` begins with the list `p`. -/
def startsList : List Char → List Char → Bool
  | _, [] => true
  | [], _ :: _ => false
  | c :: cs, p :: ps => c = p && startsList cs ps

/-- `containsList l p`: `p` occurs as a contiguous sublist of `l`. -/
def containsList : List Char → List Char → Bool
  | [], p => startsList [] p
  | l@(_ :: cs), p => startsList l p || containsList cs p

/-- Python `pat in s` (substring containment). -/
def strContains (s pat : String) : Bool :=
  containsList s.toList pat.toList

/-- Python `s.startswith(pat)`. -/
def strStartsWith (s pat : String) : Bool :=
  startsList s.toList pat.toList

/-- Python `s.endswith(pat)`. -/
def strEndsWith (s pat : String) : Bool :=
  startsList s.toList.reverse pat.toList.reverse

/-! ### `get_mime_type` (server.py lines 137-143) -/

/-- `get_mime_type` from server.py: fixed extension → MIME table with
`application/octet-stream` default. -/
def get_mime_type (ext : String) : String :=
  if ext = ".png" then "image/png"
  else if ext = ".svg" then "image/svg+xml"
  else if ext = ".pdf" then "application/pdf"
  else "application/octet-stream"

/-! ### Artifact search (server.py lines 159-169) -/

/-- A file name matches the glob pattern `*{ext}` as interpreted by
`pathlib.Path.glob` (server.py line 161): pathlib compiles the pattern via
`fnmatch.translate(...)` and full-matches it, where `*` matches any run of
characters including a leading dot (unlike the `glob` module, pathlib does
not exclude hidden files), so a name matches exactly when it ends with
`ext`. -/
def extMatches (ext : String) (name : String) : Bool :=
  strEndsWith name ext

/-- The extension priority list `[f".{output_format}", ".png", ".svg", ".pdf"]`
iterated by the search loop in `render_diagram`. -/
def searchExts (output_format : String) : List String :=
  ["." ++ output_format, ".png", ".svg", ".pdf"]

/-- The nested loop `for ext in [...]: for f in Path(tmpdir).glob(f"*{ext}")`:
returns the first file (in directory enumeration order) matching the first
extension that matches anything, together with that extension. -/
def findArtifact (output_format : String) (files : List FileEntry) :
    Option (FileEntry × String) :=
  (searchExts output_format).findSome? fun ext =>
    (files.find? fun f => extMatches ext f.name).map fun f => (f, ext)

/-! ### `render_diagram` (server.py lines 146-180) -/

/-- Outcome of Python's `exec(code, exec_globals)` on the submitted source:
either normal termination leaving `files` in the (current) working
directory, or one of the three exception classes the source catches. -/
inductive ExecOutcome where
  | ok (files : List FileEntry)
  | syntaxError (msg : String)
  | importError (msg : String)
  | otherError (msg : String)
  deriving DecidableEq, Repr

/-- The dict returned by `render_diagram`: `success`/`filename`/`content`/
`mime_type` on the success path, `success=False`/`error` on failure. -/
inductive RenderOutcome where
  | success (filename : String) (content : Bytes) (mime_type : String)
  | failure (error : String)
  deriving DecidableEq, Repr

/-- The no-artifact diagnostic string of server.py line 173. -/
def noDiagramMsg : String :=
  "No diagram file was generated. Ensure your code creates a Diagram with show=False."

/-- `render_diagram(code, output_format)` from server.py, with `exec`
abstracted as `ev`.  On normal evaluation the working directory is scanned
by `findArtifact`; the three `except` clauses produce the three diagnostic
shapes of lines 175-180. -/
def render_diagram (ev : String → ExecOutcome) (code : String)
    (output_format : String) : RenderOutcome :=
  match ev code with
  | .ok files =>
      match findArtifact output_format files with
      | some (f, ext) => .success f.name f.content (get_mime_type ext)
      | none => .failure noDiagramMsg
  | .syntaxError e => .failure ("Python syntax error: " ++ e)
  | .importError e => .failure ("Import error: " ++ e)
  | .otherError e => .failure e

/-! ### `base64.b64encode` (used at server.py line 308) -/

/-- The base64 alphabet, indexed 0-63. -/
def b64Char (n : Nat) : Char :=
  ("ABCDEFGHIJKLMNOPQRSTUVWXYZabcdefghijklmnopqrstuvwxyz0123456789+/".toList).getD n '='

/-- Standard base64 encoding of a byte list (RFC 4648, with `=` padding),
modelling `base64.b64encode(...).decode()`. -/
def base64Encode : Bytes → String
  | [] => ""
  | [a] =>
      String.mk [b64Char (a / 4), b64Char (a % 4 * 16)] ++ "=="
  | [a, b] =>
      String.mk [b64Char (a / 4), b64Char (a % 4 * 16 + b / 16),
        b64Char (b % 16 * 4)] ++ "="
  | a :: b :: c :: rest =>
      String.mk [b64Char (a / 4), b64Char (a % 4 * 16 + b / 16),
        b64Char (b % 16 * 4 + c / 64), b64Char (c % 64)] ++ base64Encode rest

/-! ### `bytes.decode("utf-8")` (server.py line 317)

Python's strict UTF-8 decoder: rejects stray continuation bytes, overlong
encodings, surrogates and codepoints above `0x10FFFF`.  Modelled as a
decoder to a codepoint list returning `none` exactly where Python raises
`UnicodeDecodeError`. -/

/-- A UTF-8 continuation byte: `0x80..0xBF`. -/
def isCont (b : Nat) : Bool := 0x80 ≤ b && b ≤ 0xBF

/-- Valid second byte of a three-byte sequence headed by `b1`
(restricted ranges for `0xE0` and `0xED` exclude overlongs and surrogates). -/
def isCont3 (b1 b2 : Nat) : Bool :=
  if b1 = 0xE0 then 0xA0 ≤ b2 && b2 ≤ 0xBF
  else if b1 = 0xED then 0x80 ≤ b2 && b2 ≤ 0x9F
  else isCont b2

/-- Valid second byte of a four-byte sequence headed by `b1`
(restricted ranges for `0xF0` and `0xF4` exclude overlongs and values
above `0x10FFFF`). -/
def isCont4 (b1 b2 : Nat) : Bool :=
  if b1 = 0xF0 then 0x90 ≤ b2 && b2 ≤ 0xBF
  else if b1 = 0xF4 then 0x80 ≤ b2 && b2 ≤ 0x8F
  else isCont b2

/-- Decode one UTF-8 scalar value from the front of the byte list,
returning the codepoint and the remaining bytes, or `none` if the bytes
are not valid UTF-8 at this position. -/
def utf8DecodeOne : List Nat → Option (Nat × List Nat)
  | [] => none
  | b1 :: rest =>
    if b1 < 0x80 then some (b1, rest)
    else if b1 < 0xC2 then none
    else if b1 ≤ 0xDF then
      match rest with
      | b2 :: rest2 =>
          if isCont b2 then some ((b1 - 0xC0) * 0x40 + (b2 - 0x80), rest2)
          else none
      | [] => none
    else if b1 ≤ 0xEF then
      match rest with
      | b2 :: b3 :: rest3 =>
          if isCont3 b1 b2 && isCont b3 then
            some ((b1 - 0xE0) * 0x1000 + (b2 - 0x80) * 0x40 + (b3 - 0x80), rest3)
          else none
      | _ => none
    else if b1 ≤ 0xF4 then
      match rest with
      | b2 :: b3 :: b4 :: rest4 =>
          if isCont4 b1 b2 && isCont b3 && isCont b4 then
            some ((b1 - 0xF0) * 0x40000 + (b2 - 0x80) * 0x1000 +
              (b3 - 0x80) * 0x40 + (b4 - 0x80), rest4)
          else none
      | _ => none
    else none

/-- Decode a byte list to codepoints with explicit fuel; every scalar
consumes at least one byte, so `fuel = l.length` always suffices. -/
def utf8DecodeFuel : Nat → List Nat → Option (List Nat)
  | _, [] => some []
  | 0, _ :: _ => none
  | fuel + 1, b :: rest0 =>
    match utf8DecodeOne (b :: rest0) with
    | some (cp, rest) =>
        match utf8DecodeFuel fuel rest with
        | some cps => some (cp :: cps)
        | none => none
    | none => none

/-- Python `bytes.decode("utf-8")` (strict): `some` codepoints on valid
UTF-8 input, `none` where Python raises `UnicodeDecodeError`. -/
def utf8Decode (l : Bytes) : Option (List Nat) :=
  utf8DecodeFuel l.length l

/-- Build the decoded text from the codepoint list. -/
def strOfCodepoints (cps : List Nat) : String :=
  String.mk (cps.map Char.ofNat)

/-! ### The `diagrams_render` branch of `call_tool` (server.py lines 271-325) -/

/-- One content item of the response payload: `TextContent` or
`ImageContent` (base64 data plus MIME type). -/
inductive ContentItem where
  | text (body : String)
  | image (data : String) (mimeType : String)
  deriving DecidableEq, Repr

/-- An exception escaping the handler instead of a response: the unguarded
`result["content"].decode("utf-8")` at server.py line 317. -/
inductive HandlerError where
  | unicodeDecodeError
  deriving DecidableEq, Repr

/-- Observable filesystem side effects of one handler invocation:
whether a temporary working directory was created (entering the
`TemporaryDirectory()` context in `render_diagram`), whether `exec` was
invoked on the submitted code, and the files written under the output
root (absolute path, bytes). -/
structure Effects where
  tmpdirCreated : Bool
  execRan : Bool
  filesWritten : List (String × Bytes)
  deriving DecidableEq, Repr

/-- The deployment environment of one call: the abstracted `exec`
behaviour and whether the `/output` mount point exists. -/
structure Env where
  evalCode : String → ExecOutcome
  outputRootExists : Bool

/-- Arguments of a `diagrams_render` call after the `.get` defaults of
server.py lines 272-274: `code` defaults to `""`, `format` to `"png"`
(via `Option.getD` below), `output_path` to absent. -/
structure RenderArgs where
  code : String
  format : Option String
  output_path : Option String

/-- Response plus observable side effects of one handler invocation. -/
structure HandlerResult where
  response : Except HandlerError (List ContentItem)
  effects : Effects

/-- The import validation of server.py line 277:
`"from diagrams" not in code and "import diagrams" not in code` rejects. -/
def importOk (code : String) : Bool :=
  strContains code "from diagrams" || strContains code "import diagrams"

/-- Lines 294-295: append `f".{output_format}"` unless `output_path`
already ends with it. -/
def normalizeOutputPath (op output_format : String) : String :=
  if strEndsWith op ("." ++ output_format) then op
  else op ++ "." ++ output_format

/-- `str(Path("/output") / p)`: joining with an absolute path replaces the
root, otherwise the path is resolved under `/output`. -/
def joinOutput (p : String) : String :=
  if strStartsWith p "/" then p else "/output/" ++ p

/-- The mount-configuration diagnostic of server.py lines 302-305. -/
def mountErrorMsg : String :=
  "Error: /output directory not mounted. Use: docker run -v /your/path:/output ..."

/-- The rejection text of server.py lines 278-281. -/
def importErrorMsg : String :=
  "Error: Code must import from the diagrams library"

/-- The `elif name == "diagrams_render"` branch of `call_tool`
(server.py lines 271-325), with filesystem effects made explicit.
The save step yields `none` for the missing-mount error, `some none`
when no save happens (`output_path` absent or falsy-empty), and
`some (some (path, bytes))` for a completed save. -/
def call_tool_render (env : Env) (args : RenderArgs) : HandlerResult :=
  let code := args.code
  let output_format := args.format.getD "png"
  if !(importOk code) then
    ⟨.ok [.text importErrorMsg], ⟨false, false, []⟩⟩
  else
    match render_diagram env.evalCode code output_format with
    | .failure err => ⟨.ok [.text ("Error: " ++ err)], ⟨true, true, []⟩⟩
    | .success _fname content mime =>
      let saveStep : Option (Option String) :=
        match args.output_path with
        | some op =>
            if op = "" then some none
            else if env.outputRootExists then
              some (some (joinOutput (normalizeOutputPath op output_format)))
            else none
        | none => some none
      match saveStep with
      | none => ⟨.ok [.text mountErrorMsg], ⟨true, true, []⟩⟩
      | some saved =>
        let savedItems : List ContentItem :=
          match saved with
          | some p => [.text ("Saved to: " ++ p)]
          | none => []
        let written : List (String × Bytes) :=
          match saved with
          | some p => [(p, content)]
          | none => []
        if output_format = "svg" then
          match utf8Decode content with
          | some cps =>
              ⟨.ok (savedItems ++ [.text (strOfCodepoints cps)]), ⟨true, true, written⟩⟩
          | none => ⟨.error .unicodeDecodeError, ⟨true, true, written⟩⟩
        else
          ⟨.ok (savedItems ++ [.image (base64Encode content) mime]), ⟨true, true, written⟩⟩

/-! ### Interleaving model of concurrent renders (server.py lines 149-169)

`render_diagram` selects its working directory by mutating the
process-wide current directory (`os.chdir(tmpdir)`, line 150); `exec`
then writes the diagram file relative to the *current* directory, while
the artifact scan reads `Path(tmpdir)` explicitly (line 161).  To study
isolation between concurrent requests, each request is decomposed into
its three shared-state-touching steps — `chdir`, `exec`, `scan` — and a
schedule is an arbitrary interleaving of those steps over a process state
holding the shared current directory and the per-directory file lists. -/

/-- One concurrent render request: its private temporary directory id,
the single artifact file its program writes (relative to the current
directory at `exec` time), and its requested output format. -/
structure Req where
  dir : Nat
  fname : String
  bytes : Bytes
  fmt : String

/-- One shared-state-touching step of request `i`'s `render_diagram` run. -/
inductive Step where
  | chdir (i : Nat)
  | exec (i : Nat)
  | scan (i : Nat)

/-- Process state: the shared current working directory, the contents of
every temporary directory, and each request's recorded outcome. -/
structure ConcState where
  cwd : Nat
  dirs : Nat → List FileEntry
  results : Nat → Option RenderOutcome

/-- `open(f, "wb")` + write: truncate an existing file of the same name in
place, otherwise create it at the end of the directory listing. -/
def writeFile (files : List FileEntry) (name : String) (bytes : Bytes) :
    List FileEntry :=
  if files.any fun f => f.name = name then
    files.map fun f => if f.name = name then ⟨name, bytes⟩ else f
  else files ++ [⟨name, bytes⟩]

/-- Execute one step of one request against the process state.
`chdir` mutates the shared current directory; `exec` writes the request's
file into whatever directory is current; `scan` runs the artifact search
of `render_diagram` over the request's own temporary directory. -/
def runStep (r : Nat → Req) (s : ConcState) : Step → ConcState
  | .chdir i => { s with cwd := (r i).dir }
  | .exec i =>
      { s with dirs := fun d =>
          if d = s.cwd then writeFile (s.dirs d) (r i).fname (r i).bytes
          else s.dirs d }
  | .scan i =>
      let outcome :=
        match findArtifact (r i).fmt (s.dirs (r i).dir) with
        | some (f, ext) => RenderOutcome.success f.name f.content (get_mime_type ext)
        | none => RenderOutcome.failure noDiagramMsg
      { s with results := fun j => if j = i then some outcome else s.results j }

/-- Run a schedule (a list of interleaved steps) from a state. -/
def runSched (r : Nat → Req) (steps : List Step) (s : ConcState) : ConcState :=
  steps.foldl (runStep r) s

/-- Initial process state: every temporary directory empty, no results. -/
def initState : ConcState :=
  { cwd := 0, dirs := fun _ => [], results := fun _ => none }

/-! ### Specification-side predicates for the artifact search

These state, in the claim's own terms, what "the first file matched under
the priority scan" means, independently of the search function. -/

/-- `f` is the first file of `files` (in enumeration order) whose name
matches extension `ext`. -/
def FoundAt (files : List FileEntry) (ext : String) (f : FileEntry) : Prop :=
  ∃ l1 l2, files = l1 ++ f :: l2 ∧ extMatches ext f.name = true ∧
    ∀ g ∈ l1, extMatches ext g.name = false

/-- No file of `files` matches extension `ext`. -/
def NoMatch (files : List FileEntry) (ext : String) : Prop :=
  ∀ g ∈ files, extMatches ext g.name = false

/-- The claim's priority contract: `(f, ext)` is the result of scanning
first for the exact requested extension `"." ++ fmt`, then for `.png`,
`.svg`, `.pdf`, in that order, taking the first file matched. -/
def SpecResult (fmt : String) (files : List FileEntry) (f : FileEntry)
    (ext : String) : Prop :=
  (ext = "." ++ fmt ∧ FoundAt files ext f) ∨
  (ext = ".png" ∧ NoMatch files ("." ++ fmt) ∧ FoundAt files ".png" f) ∨
  (ext = ".svg" ∧ NoMatch files ("." ++ fmt) ∧ NoMatch files ".png" ∧
    FoundAt files ".svg" f) ∨
  (ext = ".pdf" ∧ NoMatch files ("." ++ fmt) ∧ NoMatch files ".png" ∧
    NoMatch files ".svg" ∧ FoundAt files ".pdf" f)

/-! ### Lemmas about the search -/

theorem find?_eq_some_of_foundAt {files : List FileEntry} {ext : String}
    {f : FileEntry} (h : FoundAt files ext f) :
    (files.find? fun g => extMatches ext g.name) = some f := by
  obtain ⟨l1, l2, rfl, hf, hnone⟩ := h
  induction l1 with
  | nil =>
      rw [List.nil_append]
      exact List.find?_cons_of_pos _ hf
  | cons a t ih =>
      have ha : extMatches ext a.name = false := hnone a (by simp)
      have ht : ∀ g ∈ t, extMatches ext g.name = false := fun g hg =>
        hnone g (by simp [hg])
      rw [List.cons_append, List.find?_cons_of_neg _ (by simp [ha])]
      exact ih ht

theorem find?_eq_none_of_noMatch {files : List FileEntry} {ext : String}
    (h : NoMatch files ext) :
    (files.find? fun g => extMatches ext g.name) = none := by
  exact List.find?_eq_none.mpr fun g hg => by simp [h g hg]

theorem findArtifact_of_specResult {fmt : String} {files : List FileEntry}
    {f : FileEntry} {ext : String} (h : SpecResult fmt files f ext) :
    findArtifact fmt files = some (f, ext) := by
  unfold findArtifact searchExts
  rcases h with ⟨rfl, h1⟩ | ⟨rfl, h0, h1⟩ | ⟨rfl, h0, hp, h1⟩ | ⟨rfl, h0, hp, hs, h1⟩
  · simp [List.findSome?_cons, find?_eq_some_of_foundAt h1]
  · simp [List.findSome?_cons, find?_eq_none_of_noMatch h0,
      find?_eq_some_of_foundAt h1]
  · simp [List.findSome?_cons, find?_eq_none_of_noMatch h0,
      find?_eq_none_of_noMatch hp, find?_eq_some_of_foundAt h1]
  · simp [List.findSome?_cons, find?_eq_none_of_noMatch h0,
      find?_eq_none_of_noMatch hp, find?_eq_none_of_noMatch hs,
      find?_eq_some_of_foundAt h1]

theorem findArtifact_eq_none {fmt : String} {files : List FileEntry}
    (h : ∀ ext ∈ searchExts fmt, NoMatch files ext) :
    findArtifact fmt files = none := by
  unfold findArtifact
  have h0 := find?_eq_none_of_noMatch (h ("." ++ fmt) (by simp [searchExts]))
  have hp := find?_eq_none_of_noMatch (h ".png" (by simp [searchExts]))
  have hs := find?_eq_none_of_noMatch (h ".svg" (by simp [searchExts]))
  have hd := find?_eq_none_of_noMatch (h ".pdf" (by simp [searchExts]))
  simp [searchExts, List.findSome?_cons, h0, hp, hs, hd]

theorem findArtifact_singleton {fmt name : String} {b : Bytes}
    (h : extMatches ("." ++ fmt) name = true) :
    findArtifact fmt [⟨name, b⟩] = some (⟨name, b⟩, "." ++ fmt) := by
  unfold findArtifact searchExts
  simp [List.findSome?_cons, List.find?, h]

/-! ### Claims -/

/-- C1: for every render whose evaluation completes without raising, the
artifact search scans the working directory in the fixed priority order —
first the exact requested format's extension, then `.png`, `.svg`, `.pdf`
in that order — and returns `Success` for the first file matched; if no
file matches any known extension it returns `Failure` with the diagnostic
instructing that the program must produce an output artifact with
auto-display disabled. -/
theorem c1_artifact_search_priority (ev : String → ExecOutcome)
    (code fmt : String) (files : List FileEntry)
    (h : ev code = ExecOutcome.ok files) :
    (∀ f ext, SpecResult fmt files f ext →
      render_diagram ev code fmt =
        RenderOutcome.success f.name f.content (get_mime_type ext)) ∧
    ((∀ ext ∈ searchExts fmt, NoMatch files ext) →
      render_diagram ev code fmt = RenderOutcome.failure noDiagramMsg) := by
  constructor
  · intro f ext hspec
    simp only [render_diagram, h, findArtifact_of_specResult hspec]
  · intro hno
    simp only [render_diagram, h, findArtifact_eq_none hno]

/-- Witness for C1: a render requesting `svg` over a directory holding
`b.txt` and `a.png` matches nothing for `.svg` and falls back to the
first `.png` file; and a hidden `.hidden.png` file is matched by the
scan, as `pathlib.Path.glob` matches dotfiles. -/
theorem c1_artifact_search_priority_witness :
    render_diagram (fun _ => ExecOutcome.ok [⟨"b.txt", [0]⟩, ⟨"a.png", [7]⟩])
      "from diagrams import Diagram" "svg" =
      RenderOutcome.success "a.png" [7] "image/png" ∧
    render_diagram (fun _ => ExecOutcome.ok [⟨".hidden.png", [9]⟩])
      "from diagrams import Diagram" "png" =
      RenderOutcome.success ".hidden.png" [9] "image/png" := by
  constructor
  · have h := c1_artifact_search_priority
      (fun _ => ExecOutcome.ok [⟨"b.txt", [0]⟩, ⟨"a.png", [7]⟩])
      "from diagrams import Diagram" "svg" [⟨"b.txt", [0]⟩, ⟨"a.png", [7]⟩] rfl
    have hspec : SpecResult "svg" [⟨"b.txt", [0]⟩, ⟨"a.png", [7]⟩]
        ⟨"a.png", [7]⟩ ".png" :=
      Or.inr (Or.inl ⟨rfl, by unfold NoMatch; decide,
        ⟨[⟨"b.txt", [0]⟩], [], rfl, by decide, by decide⟩⟩)
    simpa [get_mime_type] using h.1 ⟨"a.png", [7]⟩ ".png" hspec
  · have h := c1_artifact_search_priority
      (fun _ => ExecOutcome.ok [⟨".hidden.png", [9]⟩])
      "from diagrams import Diagram" "png" [⟨".hidden.png", [9]⟩] rfl
    have hspec : SpecResult "png" [⟨".hidden.png", [9]⟩]
        ⟨".hidden.png", [9]⟩ ("." ++ "png") :=
      Or.inl ⟨rfl, ⟨[], [], rfl, by decide, by decide⟩⟩
    simpa [get_mime_type] using h.1 ⟨".hidden.png", [9]⟩ ("." ++ "png") hspec

/-- C2: for every render whose evaluation raises, the outcome is a
`Failure` in exactly three diagnostic shapes — syntax-level, missing
dependency, generic — each carrying the underlying error text, and for
any underlying text the three resulting diagnostics are pairwise
distinct (the syntax and import diagnostics carry distinct category
markers and the generic one carries none). -/
theorem c2_exception_classification (ev : String → ExecOutcome)
    (code fmt msg : String) :
    (ev code = ExecOutcome.syntaxError msg →
      render_diagram ev code fmt =
        RenderOutcome.failure ("Python syntax error: " ++ msg)) ∧
    (ev code = ExecOutcome.importError msg →
      render_diagram ev code fmt =
        RenderOutcome.failure ("Import error: " ++ msg)) ∧
    (ev code = ExecOutcome.otherError msg →
      render_diagram ev code fmt = RenderOutcome.failure msg) ∧
    ("Python syntax error: " ++ msg ≠ "Import error: " ++ msg ∧
      "Python syntax error: " ++ msg ≠ msg ∧
      "Import error: " ++ msg ≠ msg) ∧
    (∀ env args, importOk (RenderArgs.code args) = true →
      render_diagram (Env.evalCode env) (RenderArgs.code args)
        ((RenderArgs.format args).getD "png") = RenderOutcome.failure msg →
      (call_tool_render env args).response =
        Except.ok [ContentItem.text ("Error: " ++ msg)]) := by
  have e1 : ("Python syntax error: " : String).length = 21 := rfl
  have e2 : ("Import error: " : String).length = 14 := rfl
  refine ⟨fun h => by unfold render_diagram; rw [h],
    fun h => by unfold render_diagram; rw [h],
    fun h => by unfold render_diagram; rw [h], ⟨?_, ?_, ?_⟩,
    fun env args himp hfail => by simp [call_tool_render, himp, hfail]⟩
  · intro heq
    have hl := congrArg String.length heq
    rw [String.length_append, String.length_append, e1, e2] at hl
    omega
  · intro heq
    have hl := congrArg String.length heq
    rw [String.length_append, e1] at hl
    omega
  · intro heq
    have hl := congrArg String.length heq
    rw [String.length_append, e2] at hl
    omega

/-- Witness for C2: the three exception classes produce their three
diagnostic shapes on concrete inputs. -/
theorem c2_exception_classification_witness :
    render_diagram (fun _ => ExecOutcome.syntaxError "bad token")
      "from diagrams" "png" =
      RenderOutcome.failure ("Python syntax error: " ++ "bad token") ∧
    render_diagram (fun _ => ExecOutcome.importError "no module")
      "from diagrams" "png" =
      RenderOutcome.failure ("Import error: " ++ "no module") ∧
    render_diagram (fun _ => ExecOutcome.otherError "boom")
      "from diagrams" "png" = RenderOutcome.failure "boom" ∧
    (call_tool_render ⟨fun _ => ExecOutcome.syntaxError "bad", true⟩
      ⟨"from diagrams", none, none⟩).response =
      Except.ok [ContentItem.text ("Error: " ++ "Python syntax error: bad")] :=
  ⟨(c2_exception_classification (fun _ => ExecOutcome.syntaxError "bad token")
      "from diagrams" "png" "bad token").1 rfl,
    (c2_exception_classification (fun _ => ExecOutcome.importError "no module")
      "from diagrams" "png" "no module").2.1 rfl,
    (c2_exception_classification (fun _ => ExecOutcome.otherError "boom")
      "from diagrams" "png" "boom").2.2.1 rfl,
    (c2_exception_classification (fun _ => ExecOutcome.syntaxError "bad")
      "from diagrams" "png" "Python syntax error: bad").2.2.2.2
      ⟨fun _ => ExecOutcome.syntaxError "bad", true⟩
      ⟨"from diagrams", none, none⟩ (by decide) (by decide)⟩

/-! ### Lemmas about extension normalization -/

theorem startsList_append (x y : List Char) : startsList (x ++ y) x = true := by
  induction x with
  | nil => simp [startsList]
  | cons c cs ih => simp [startsList, ih]

theorem strEndsWith_append (a b : String) : strEndsWith (a ++ b) b = true := by
  unfold strEndsWith
  have : (a ++ b).toList = a.toList ++ b.toList := String.data_append a b
  rw [this, List.reverse_append]
  exact startsList_append _ _

theorem normalizeOutputPath_endsWith (op fmt : String) :
    strEndsWith (normalizeOutputPath op fmt) ("." ++ fmt) = true := by
  unfold normalizeOutputPath
  by_cases h : strEndsWith op ("." ++ fmt) = true
  · simp [h]
  · rw [if_neg h, String.append_assoc]
    exact strEndsWith_append op ("." ++ fmt)

/-- Inversion of a successful `render_diagram` run: the evaluation
terminated normally and the search matched a file whose name, content and
extension-derived MIME type are the ones reported. -/
theorem render_success_inv {ev : String → ExecOutcome} {code fmt fname : String}
    {c : Bytes} {mime : String}
    (h : render_diagram ev code fmt = RenderOutcome.success fname c mime) :
    ∃ files f ext, ev code = ExecOutcome.ok files ∧
      findArtifact fmt files = some (f, ext) ∧
      fname = f.name ∧ c = f.content ∧ mime = get_mime_type ext := by
  cases hev : ev code with
  | ok files =>
      simp only [render_diagram, hev] at h
      cases hfa : findArtifact fmt files with
      | none => simp only [hfa] at h; simp at h
      | some pair =>
          obtain ⟨f, ext⟩ := pair
          simp only [hfa] at h
          simp only [RenderOutcome.success.injEq] at h
          exact ⟨files, f, ext, rfl, hfa, h.1.symm, h.2.1.symm, h.2.2.symm⟩
  | syntaxError e => simp only [render_diagram, hev] at h; simp at h
  | importError e => simp only [render_diagram, hev] at h; simp at h
  | otherError e => simp only [render_diagram, hev] at h; simp at h

/-- C3: a render request whose code contains neither accepted
import-reference substring is rejected with the plain error text before
any evaluation: no temporary directory is created, no code is executed,
and no file is written anywhere. -/
theorem c3_import_check_rejects_before_execution (env : Env) (args : RenderArgs)
    (h : importOk args.code = false) :
    (call_tool_render env args).response =
      Except.ok [ContentItem.text importErrorMsg] ∧
    (call_tool_render env args).effects =
      ⟨false, false, []⟩ := by
  constructor <;> simp [call_tool_render, h]

/-- Witness for C3: code with no diagrams import is rejected with no
side effects. -/
theorem c3_import_check_rejects_before_execution_witness :
    (call_tool_render ⟨fun _ => ExecOutcome.ok [], true⟩
      ⟨"print(1)", none, none⟩).response =
      Except.ok [ContentItem.text importErrorMsg] ∧
    (call_tool_render ⟨fun _ => ExecOutcome.ok [], true⟩
      ⟨"print(1)", none, none⟩).effects = ⟨false, false, []⟩ :=
  c3_import_check_rejects_before_execution
    ⟨fun _ => ExecOutcome.ok [], true⟩ ⟨"print(1)", none, none⟩ (by decide)

/-- C4: a render with `output_path` supplied and a successful outcome,
in a deployment where the `/output` root does not exist, answers with the
mount-configuration error text and writes no file anywhere. -/
theorem c4_missing_output_mount (env : Env) (args : RenderArgs)
    (op fname : String) (c : Bytes) (mime : String)
    (hop : args.output_path = some op) (hne : op ≠ "")
    (hroot : env.outputRootExists = false)
    (himp : importOk args.code = true)
    (hSuc : render_diagram env.evalCode args.code (args.format.getD "png") =
      RenderOutcome.success fname c mime) :
    (call_tool_render env args).response =
      Except.ok [ContentItem.text mountErrorMsg] ∧
    (call_tool_render env args).effects.filesWritten = [] := by
  constructor <;> simp [call_tool_render, himp, hSuc, hop, hne, hroot]

/-- Witness for C4: a successful render with `output_path` set and no
`/output` mount yields the mount error and no write. -/
theorem c4_missing_output_mount_witness :
    (call_tool_render ⟨fun _ => ExecOutcome.ok [⟨"d.png", [3]⟩], false⟩
      ⟨"from diagrams import Diagram", none, some "x"⟩).response =
      Except.ok [ContentItem.text mountErrorMsg] ∧
    (call_tool_render ⟨fun _ => ExecOutcome.ok [⟨"d.png", [3]⟩], false⟩
      ⟨"from diagrams import Diagram", none, some "x"⟩).effects.filesWritten = [] :=
  c4_missing_output_mount ⟨fun _ => ExecOutcome.ok [⟨"d.png", [3]⟩], false⟩
    ⟨"from diagrams import Diagram", none, some "x"⟩ "x" "d.png" [3] "image/png"
    rfl (by decide) rfl (by decide) (by decide)

theorem strStartsWith_slash_append (op x : String) (hne : op ≠ "")
    (h : strStartsWith op "/" = false) : strStartsWith (op ++ x) "/" = false := by
  unfold strStartsWith at h ⊢
  rw [show (op ++ x).toList = op.toList ++ x.toList from String.data_append op x]
  cases hcase : op.toList with
  | nil => exact absurd (String.ext hcase) hne
  | cons ch cs =>
      rw [hcase] at h
      rw [List.cons_append]
      show startsList (ch :: (cs ++ x.toList)) ('/' :: []) = false
      have h2 : startsList (ch :: cs) ('/' :: []) = false := h
      simp [startsList] at h2 ⊢
      exact h2

theorem joinOutput_of_relative {p : String} (h : strStartsWith p "/" = false) :
    joinOutput p = "/output/" ++ p := by
  unfold joinOutput
  simp [h]

/-- Shared shape of every handler run that performs a save: the one file
written is the artifact bytes at the resolved, normalized path. -/
theorem call_tool_render_save_written (env : Env) (args : RenderArgs)
    (op fmt fname : String) (c : Bytes) (mime : String)
    (hfmt : args.format.getD "png" = fmt)
    (hop : args.output_path = some op) (hne : op ≠ "")
    (hroot : env.outputRootExists = true)
    (himp : importOk args.code = true)
    (hSuc : render_diagram env.evalCode args.code fmt =
      RenderOutcome.success fname c mime) :
    (call_tool_render env args).effects.filesWritten =
      [(joinOutput (normalizeOutputPath op fmt), c)] := by
  simp only [call_tool_render, hfmt, himp, Bool.not_true, hSuc, hop, hroot]
  simp only [if_neg hne]
  by_cases hsvg : fmt = "svg"
  · cases hdec : utf8Decode c <;> simp [hsvg, hdec, hne]
  · simp [hsvg, hne]

/-- C5: on every save, `output_path` is normalized to end with the
requested format's extension exactly when it does not already: a path not
ending in `.<format>` has the extension appended before resolution under
the output root, and a path already ending in it is saved unchanged (the
extension is never double-appended). -/
theorem c5_output_path_extension_normalization (env : Env) (args : RenderArgs)
    (op fmt fname : String) (c : Bytes) (mime : String)
    (habs : strStartsWith op "/" = false)
    (hfmt : args.format.getD "png" = fmt)
    (hop : args.output_path = some op) (hne : op ≠ "")
    (hroot : env.outputRootExists = true)
    (himp : importOk args.code = true)
    (hSuc : render_diagram env.evalCode args.code fmt =
      RenderOutcome.success fname c mime) :
    (strEndsWith op ("." ++ fmt) = false →
      (call_tool_render env args).effects.filesWritten =
        [("/output/" ++ (op ++ "." ++ fmt), c)]) ∧
    (strEndsWith op ("." ++ fmt) = true →
      (call_tool_render env args).effects.filesWritten =
        [("/output/" ++ op, c)]) := by
  have hsave := call_tool_render_save_written env args op fmt fname c mime
    hfmt hop hne hroot himp hSuc
  constructor
  · intro hend
    have hnorm : normalizeOutputPath op fmt = op ++ "." ++ fmt := by
      unfold normalizeOutputPath
      simp [hend]
    have habs2 : strStartsWith (op ++ "." ++ fmt) "/" = false := by
      rw [String.append_assoc]
      exact strStartsWith_slash_append op ("." ++ fmt) hne habs
    rw [hsave, hnorm, joinOutput_of_relative habs2]
  · intro hend
    have hnorm : normalizeOutputPath op fmt = op := by
      unfold normalizeOutputPath
      simp [hend]
    rw [hsave, hnorm, joinOutput_of_relative habs]

/-- Witness for C5: `output_path = "diagram"` with format `png` is saved
at `/output/diagram.png`, while `output_path = "diagram.png"` is saved
unchanged. -/
theorem c5_output_path_extension_normalization_witness :
    (call_tool_render ⟨fun _ => ExecOutcome.ok [⟨"d.png", [5]⟩], true⟩
      ⟨"from diagrams import Diagram", some "png", some "diagram"⟩).effects.filesWritten =
      [("/output/" ++ ("diagram" ++ "." ++ "png"), [5])] ∧
    (call_tool_render ⟨fun _ => ExecOutcome.ok [⟨"d.png", [5]⟩], true⟩
      ⟨"from diagrams import Diagram", some "png", some "diagram.png"⟩).effects.filesWritten =
      [("/output/" ++ "diagram.png", [5])] :=
  ⟨(c5_output_path_extension_normalization
      ⟨fun _ => ExecOutcome.ok [⟨"d.png", [5]⟩], true⟩
      ⟨"from diagrams import Diagram", some "png", some "diagram"⟩
      "diagram" "png" "d.png" [5] "image/png"
      (by decide) rfl rfl (by decide) rfl (by decide) (by decide)).1 (by decide),
    (c5_output_path_extension_normalization
      ⟨fun _ => ExecOutcome.ok [⟨"d.png", [5]⟩], true⟩
      ⟨"from diagrams import Diagram", some "png", some "diagram.png"⟩
      "diagram.png" "png" "d.png" [5] "image/png"
      (by decide) rfl rfl (by decide) rfl (by decide) (by decide)).2 (by decide)⟩

/-- Shared shape of every handler run that performs a save: the response
is the "Saved to" text item followed by the artifact item (decoded text
for `svg`, base64 image otherwise); a failing decode escapes as an
exception. -/
theorem call_tool_render_response_save (env : Env) (args : RenderArgs)
    (op fmt fname : String) (c : Bytes) (mime : String)
    (hfmt : args.format.getD "png" = fmt)
    (hop : args.output_path = some op) (hne : op ≠ "")
    (hroot : env.outputRootExists = true)
    (himp : importOk args.code = true)
    (hSuc : render_diagram env.evalCode args.code fmt =
      RenderOutcome.success fname c mime) :
    (fmt = "svg" → ∀ cps, utf8Decode c = some cps →
      (call_tool_render env args).response = Except.ok
        [ContentItem.text ("Saved to: " ++ joinOutput (normalizeOutputPath op fmt)),
          ContentItem.text (strOfCodepoints cps)]) ∧
    (fmt = "svg" → utf8Decode c = none →
      (call_tool_render env args).response =
        Except.error HandlerError.unicodeDecodeError) ∧
    (fmt ≠ "svg" →
      (call_tool_render env args).response = Except.ok
        [ContentItem.text ("Saved to: " ++ joinOutput (normalizeOutputPath op fmt)),
          ContentItem.image (base64Encode c) mime]) := by
  refine ⟨fun hsvg cps hdec => ?_, fun hsvg hdec => ?_, fun hsvg => ?_⟩ <;>
      simp only [call_tool_render, hfmt, himp, Bool.not_true, hSuc, hop, hroot] <;>
      simp only [if_neg hne]
  · simp [hne, hsvg, hdec]
  · simp [hne, hsvg, hdec]
  · simp [hne, hsvg]

/-- Shared shape of every handler run without a save (`output_path`
absent or the falsy empty string): the response is the artifact item
alone. -/
theorem call_tool_render_response_nosave (env : Env) (args : RenderArgs)
    (fmt fname : String) (c : Bytes) (mime : String)
    (hfmt : args.format.getD "png" = fmt)
    (hop : args.output_path = none ∨ args.output_path = some "")
    (himp : importOk args.code = true)
    (hSuc : render_diagram env.evalCode args.code fmt =
      RenderOutcome.success fname c mime) :
    (fmt = "svg" → ∀ cps, utf8Decode c = some cps →
      (call_tool_render env args).response = Except.ok
        [ContentItem.text (strOfCodepoints cps)]) ∧
    (fmt = "svg" → utf8Decode c = none →
      (call_tool_render env args).response =
        Except.error HandlerError.unicodeDecodeError) ∧
    (fmt ≠ "svg" →
      (call_tool_render env args).response = Except.ok
        [ContentItem.image (base64Encode c) mime]) := by
  rcases hop with hop | hop <;>
      refine ⟨fun hsvg cps hdec => ?_, fun hsvg hdec => ?_, fun hsvg => ?_⟩ <;>
      simp only [call_tool_render, hfmt, himp, Bool.not_true, hSuc, hop]
  · simp [hsvg, hdec]
  · simp [hsvg, hdec]
  · simp [hsvg]
  · simp [hsvg, hdec]
  · simp [hsvg, hdec]
  · simp [hsvg]

/-- C6: for every successful render (in a deployment where the save step
cannot fail), the artifact content item is decoded text exactly when the
requested format is `svg`, and otherwise a base64-encoded image item; the
MIME type it carries is derived from the matched extension through the
fixed table `png → image/png`, `svg → image/svg+xml`, `pdf →
application/pdf`, anything else `application/octet-stream`. -/
theorem c6_artifact_item_shape (env : Env) (args : RenderArgs)
    (fmt fname : String) (c : Bytes) (mime : String)
    (hfmt : args.format.getD "png" = fmt)
    (himp : importOk args.code = true)
    (hmount : args.output_path = none ∨ args.output_path = some "" ∨
      env.outputRootExists = true)
    (hSuc : render_diagram env.evalCode args.code fmt =
      RenderOutcome.success fname c mime) :
    (fmt = "svg" → ∀ items,
      (call_tool_render env args).response = Except.ok items →
      ∃ cps, utf8Decode c = some cps ∧
        ∃ pre, items = pre ++ [ContentItem.text (strOfCodepoints cps)]) ∧
    (fmt ≠ "svg" → ∀ items,
      (call_tool_render env args).response = Except.ok items →
      ∃ pre, items = pre ++ [ContentItem.image (base64Encode c) mime]) ∧
    (∃ files f ext, env.evalCode args.code = ExecOutcome.ok files ∧
      findArtifact fmt files = some (f, ext) ∧ mime = get_mime_type ext) ∧
    (get_mime_type ".png" = "image/png" ∧
      get_mime_type ".svg" = "image/svg+xml" ∧
      get_mime_type ".pdf" = "application/pdf") ∧
    (∀ e, e ≠ ".png" → e ≠ ".svg" → e ≠ ".pdf" →
      get_mime_type e = "application/octet-stream") := by
  have mimeEq : ∃ files f ext, env.evalCode args.code = ExecOutcome.ok files ∧
      findArtifact fmt files = some (f, ext) ∧ mime = get_mime_type ext := by
    obtain ⟨files, f, ext, hev, hfa, _, _, hm⟩ := render_success_inv hSuc
    exact ⟨files, f, ext, hev, hfa, hm⟩
  have def_mime : ∀ e, e ≠ ".png" → e ≠ ".svg" → e ≠ ".pdf" →
      get_mime_type e = "application/octet-stream" := by
    intro e h1 h2 h3
    unfold get_mime_type
    simp [h1, h2, h3]
  refine ⟨?_, ?_, mimeEq, ⟨rfl, rfl, rfl⟩, def_mime⟩
  · intro hsvg items hresp
    rcases hout : args.output_path with _ | op
    · have L := call_tool_render_response_nosave env args fmt fname c mime hfmt
        (Or.inl hout) himp hSuc
      cases hdec : utf8Decode c with
      | none =>
          have hr := L.2.1 hsvg hdec
          rw [hr] at hresp
          simp at hresp
      | some cps =>
          have hr := L.1 hsvg cps hdec
          rw [hr] at hresp
          simp only [Except.ok.injEq] at hresp
          exact ⟨cps, rfl, [], by simp [← hresp]⟩
    · by_cases hop0 : op = ""
      · subst hop0
        have L := call_tool_render_response_nosave env args fmt fname c mime hfmt
          (Or.inr hout) himp hSuc
        cases hdec : utf8Decode c with
        | none =>
            have hr := L.2.1 hsvg hdec
            rw [hr] at hresp
            simp at hresp
        | some cps =>
            have hr := L.1 hsvg cps hdec
            rw [hr] at hresp
            simp only [Except.ok.injEq] at hresp
            exact ⟨cps, rfl, [], by simp [← hresp]⟩
      · have hroot : env.outputRootExists = true := by
          rcases hmount with h | h | h
          · rw [hout] at h; exact absurd h (by simp)
          · rw [hout] at h; simp at h; exact absurd h hop0
          · exact h
        have L := call_tool_render_response_save env args op fmt fname c mime hfmt
          hout hop0 hroot himp hSuc
        cases hdec : utf8Decode c with
        | none =>
            have hr := L.2.1 hsvg hdec
            rw [hr] at hresp
            simp at hresp
        | some cps =>
            have hr := L.1 hsvg cps hdec
            rw [hr] at hresp
            simp only [Except.ok.injEq] at hresp
            exact ⟨cps, rfl,
              [ContentItem.text ("Saved to: " ++
                joinOutput (normalizeOutputPath op fmt))], by simp [← hresp]⟩
  · intro hsvg items hresp
    rcases hout : args.output_path with _ | op
    · have L := call_tool_render_response_nosave env args fmt fname c mime hfmt
        (Or.inl hout) himp hSuc
      have hr := L.2.2 hsvg
      rw [hr] at hresp
      simp only [Except.ok.injEq] at hresp
      exact ⟨[], by simp [← hresp]⟩
    · by_cases hop0 : op = ""
      · subst hop0
        have L := call_tool_render_response_nosave env args fmt fname c mime hfmt
          (Or.inr hout) himp hSuc
        have hr := L.2.2 hsvg
        rw [hr] at hresp
        simp only [Except.ok.injEq] at hresp
        exact ⟨[], by simp [← hresp]⟩
      · have hroot : env.outputRootExists = true := by
          rcases hmount with h | h | h
          · rw [hout] at h; exact absurd h (by simp)
          · rw [hout] at h; simp at h; exact absurd h hop0
          · exact h
        have L := call_tool_render_response_save env args op fmt fname c mime hfmt
          hout hop0 hroot himp hSuc
        have hr := L.2.2 hsvg
        rw [hr] at hresp
        simp only [Except.ok.injEq] at hresp
        exact ⟨[ContentItem.text ("Saved to: " ++
          joinOutput (normalizeOutputPath op fmt))], by simp [← hresp]⟩

/-- Witness for C6: an `svg` render over valid UTF-8 artifact bytes emits
the decoded-text artifact item. -/
theorem c6_artifact_item_shape_witness :
    ∃ cps, utf8Decode ([60, 115, 118, 103, 47, 62] : Bytes) = some cps ∧
      ∃ pre, [ContentItem.text (strOfCodepoints [60, 115, 118, 103, 47, 62])] =
        pre ++ [ContentItem.text (strOfCodepoints cps)] := by
  have h := c6_artifact_item_shape
    ⟨fun _ => ExecOutcome.ok [⟨"a.svg", [60, 115, 118, 103, 47, 62]⟩], true⟩
    ⟨"from diagrams import Diagram", some "svg", none⟩
    "svg" "a.svg" [60, 115, 118, 103, 47, 62] "image/svg+xml"
    rfl (by decide) (Or.inl rfl) (by decide)
  exact h.1 rfl [ContentItem.text (strOfCodepoints [60, 115, 118, 103, 47, 62])] rfl

/-- C7: for every successful render in which a save occurred, the
response payload is the "Saved to: `<resolved path>`" text item followed
by the artifact item; when no save occurred the payload is the artifact
item alone. -/
theorem c7_saved_text_precedes_artifact (env : Env) (args : RenderArgs)
    (fmt fname : String) (c : Bytes) (mime : String)
    (hfmt : args.format.getD "png" = fmt)
    (himp : importOk args.code = true)
    (hSuc : render_diagram env.evalCode args.code fmt =
      RenderOutcome.success fname c mime) :
    (∀ op, args.output_path = some op → op ≠ "" → env.outputRootExists = true →
      ∀ items, (call_tool_render env args).response = Except.ok items →
        ∃ a, items = [ContentItem.text ("Saved to: " ++
          joinOutput (normalizeOutputPath op fmt)), a]) ∧
    (args.output_path = none →
      ∀ items, (call_tool_render env args).response = Except.ok items →
        ∃ a, items = [a]) := by
  constructor
  · intro op hout hop0 hroot items hresp
    have L := call_tool_render_response_save env args op fmt fname c mime hfmt
      hout hop0 hroot himp hSuc
    by_cases hsvg : fmt = "svg"
    · cases hdec : utf8Decode c with
      | none =>
          have hr := L.2.1 hsvg hdec
          rw [hr] at hresp
          simp at hresp
      | some cps =>
          have hr := L.1 hsvg cps hdec
          rw [hr] at hresp
          simp only [Except.ok.injEq] at hresp
          exact ⟨ContentItem.text (strOfCodepoints cps), hresp.symm⟩
    · have hr := L.2.2 hsvg
      rw [hr] at hresp
      simp only [Except.ok.injEq] at hresp
      exact ⟨ContentItem.image (base64Encode c) mime, hresp.symm⟩
  · intro hout items hresp
    have L := call_tool_render_response_nosave env args fmt fname c mime hfmt
      (Or.inl hout) himp hSuc
    by_cases hsvg : fmt = "svg"
    · cases hdec : utf8Decode c with
      | none =>
          have hr := L.2.1 hsvg hdec
          rw [hr] at hresp
          simp at hresp
      | some cps =>
          have hr := L.1 hsvg cps hdec
          rw [hr] at hresp
          simp only [Except.ok.injEq] at hresp
          exact ⟨ContentItem.text (strOfCodepoints cps), hresp.symm⟩
    · have hr := L.2.2 hsvg
      rw [hr] at hresp
      simp only [Except.ok.injEq] at hresp
      exact ⟨ContentItem.image (base64Encode c) mime, hresp.symm⟩

/-- Witness for C7: with a save, the "Saved to" text item precedes the
artifact item; without one, the artifact item stands alone. -/
theorem c7_saved_text_precedes_artifact_witness :
    (∃ a, ([ContentItem.text ("Saved to: " ++
        joinOutput (normalizeOutputPath "out" "png")),
        ContentItem.image (base64Encode [9]) "image/png"] : List ContentItem) =
      [ContentItem.text ("Saved to: " ++
        joinOutput (normalizeOutputPath "out" "png")), a]) ∧
    (∃ a, ([ContentItem.image (base64Encode [9]) "image/png"] :
        List ContentItem) = [a]) := by
  constructor
  · exact (c7_saved_text_precedes_artifact
      ⟨fun _ => ExecOutcome.ok [⟨"d.png", [9]⟩], true⟩
      ⟨"from diagrams import Diagram", some "png", some "out"⟩
      "png" "d.png" [9] "image/png" rfl (by decide) (by decide)).1
      "out" rfl (by decide) rfl _ rfl
  · exact (c7_saved_text_precedes_artifact
      ⟨fun _ => ExecOutcome.ok [⟨"d.png", [9]⟩], true⟩
      ⟨"from diagrams import Diagram", some "png", none⟩
      "png" "d.png" [9] "image/png" rfl (by decide) (by decide)).2
      rfl _ rfl

/-- C9: when the requested format is `svg` the artifact item comes from an
unguarded UTF-8 decode of the discovered artifact's bytes, so the handler
returns a payload only if those bytes are valid UTF-8; and for a concrete
program producing no `.svg` file but a non-UTF-8 `.png` artifact found by
the fallback scan, the decode escapes as an exception instead of the
handler returning a text-item `Failure` response. -/
theorem c9_svg_decode_unguarded (env : Env) (args : RenderArgs)
    (fname : String) (c : Bytes) (mime : String)
    (hfmt : args.format.getD "png" = "svg")
    (himp : importOk args.code = true)
    (hmount : args.output_path = none ∨ args.output_path = some "" ∨
      env.outputRootExists = true)
    (hSuc : render_diagram env.evalCode args.code "svg" =
      RenderOutcome.success fname c mime) :
    (∀ items, (call_tool_render env args).response = Except.ok items →
      (utf8Decode c).isSome = true) ∧
    (call_tool_render
        ⟨fun _ => ExecOutcome.ok [⟨"d.png", [0x89, 0x50, 0x4E, 0x47]⟩], false⟩
        ⟨"from diagrams import Diagram", some "svg", none⟩).response =
      Except.error HandlerError.unicodeDecodeError := by
  constructor
  · intro items hresp
    cases hdec : utf8Decode c with
    | some cps => simp
    | none =>
        rcases hout : args.output_path with _ | op
        · have L := call_tool_render_response_nosave env args "svg" fname c mime
            hfmt (Or.inl hout) himp hSuc
          have hr := L.2.1 rfl hdec
          rw [hr] at hresp
          simp at hresp
        · by_cases hop0 : op = ""
          · subst hop0
            have L := call_tool_render_response_nosave env args "svg" fname c mime
              hfmt (Or.inr hout) himp hSuc
            have hr := L.2.1 rfl hdec
            rw [hr] at hresp
            simp at hresp
          · have hroot : env.outputRootExists = true := by
              rcases hmount with h | h | h
              · rw [hout] at h; exact absurd h (by simp)
              · rw [hout] at h; simp at h; exact absurd h hop0
              · exact h
            have L := call_tool_render_response_save env args op "svg" fname c mime
              hfmt hout hop0 hroot himp hSuc
            have hr := L.2.1 rfl hdec
            rw [hr] at hresp
            simp at hresp
  · rfl

/-- Witness for C9: an `svg` render whose artifact bytes are valid UTF-8
returns a payload, so the decode succeeded. -/
theorem c9_svg_decode_unguarded_witness :
    (utf8Decode ([60, 115, 118, 103, 47, 62] : Bytes)).isSome = true := by
  have h := c9_svg_decode_unguarded
    ⟨fun _ => ExecOutcome.ok [⟨"a.svg", [60, 115, 118, 103, 47, 62]⟩], true⟩
    ⟨"from diagrams import Diagram", some "svg", none⟩
    "a.svg" [60, 115, 118, 103, 47, 62] "image/svg+xml"
    rfl (by decide) (Or.inl rfl) (by decide)
  exact h.1 [ContentItem.text (strOfCodepoints [60, 115, 118, 103, 47, 62])] rfl

/-- C10: the extension used to normalize `output_path` comes solely from
the requested format, never from the discovered artifact's actual
extension: when the fallback scan matched a `.png` artifact while the
requested format's extension matched nothing, the file written under the
output root bears the requested format's extension and contains the
fallback artifact's bytes unchanged. -/
theorem c10_save_extension_from_requested_format (env : Env) (args : RenderArgs)
    (op fmt : String) (files : List FileEntry) (f : FileEntry)
    (habs : strStartsWith op "/" = false)
    (hfmt : args.format.getD "png" = fmt)
    (hop : args.output_path = some op) (hne : op ≠ "")
    (hroot : env.outputRootExists = true)
    (himp : importOk args.code = true)
    (hev : env.evalCode args.code = ExecOutcome.ok files)
    (hnomatch : NoMatch files ("." ++ fmt))
    (hfound : FoundAt files ".png" f) :
    (call_tool_render env args).effects.filesWritten =
      [("/output/" ++ normalizeOutputPath op fmt, f.content)] ∧
    strEndsWith (normalizeOutputPath op fmt) ("." ++ fmt) = true := by
  have hspec : SpecResult fmt files f ".png" :=
    Or.inr (Or.inl ⟨rfl, hnomatch, hfound⟩)
  have hSuc : render_diagram env.evalCode args.code fmt =
      RenderOutcome.success f.name f.content (get_mime_type ".png") := by
    simp only [render_diagram, hev, findArtifact_of_specResult hspec]
  have hsave := call_tool_render_save_written env args op fmt f.name f.content
    (get_mime_type ".png") hfmt hop hne hroot himp hSuc
  have habs2 : strStartsWith (normalizeOutputPath op fmt) "/" = false := by
    unfold normalizeOutputPath
    by_cases hend : strEndsWith op ("." ++ fmt) = true
    · simp [hend, habs]
    · rw [if_neg hend, String.append_assoc]
      exact strStartsWith_slash_append op ("." ++ fmt) hne habs
  exact ⟨by rw [hsave, joinOutput_of_relative habs2],
    normalizeOutputPath_endsWith op fmt⟩

/-- Witness for C10: a `pdf` render whose program only produced `d.png`
saves the png bytes at a path ending in `.pdf`. -/
theorem c10_save_extension_from_requested_format_witness :
    (call_tool_render ⟨fun _ => ExecOutcome.ok [⟨"d.png", [1, 2]⟩], true⟩
      ⟨"from diagrams import Diagram", some "pdf", some "x"⟩).effects.filesWritten =
      [("/output/" ++ normalizeOutputPath "x" "pdf", [1, 2])] ∧
    strEndsWith (normalizeOutputPath "x" "pdf") ("." ++ "pdf") = true :=
  c10_save_extension_from_requested_format
    ⟨fun _ => ExecOutcome.ok [⟨"d.png", [1, 2]⟩], true⟩
    ⟨"from diagrams import Diagram", some "pdf", some "x"⟩
    "x" "pdf" [⟨"d.png", [1, 2]⟩] ⟨"d.png", [1, 2]⟩
    (by decide) rfl rfl (by decide) rfl (by decide) rfl
    (by unfold NoMatch; decide) ⟨[], [], rfl, by decide, by decide⟩

/-- Two concrete concurrent requests: each has its own temporary
directory (1 and 2), each program writes `d.png` relative to the current
working directory, with distinct bytes. -/
def c8req : Nat → Req := fun i =>
  if i = 1 then ⟨1, "d.png", [1], "png"⟩ else ⟨2, "d.png", [2], "png"⟩

/-- Counterexample to C8: because the working directory is selected by
mutating the process-wide current directory, the interleaving
chdir 1, chdir 2, exec 2, exec 1, scan 2, scan 1 routes request 1's
`exec` write into request 2's directory, overwriting `d.png` there, and
request 2 then receives request 1's bytes `[1]` instead of its own
`[2]` — so two concurrent requests whose programs each produce a file
with the same name do not each receive only their own bytes. -/
theorem c8_isolation_interleaving_counterexample :
    (runSched c8req
        [Step.chdir 1, Step.chdir 2, Step.exec 2, Step.exec 1,
          Step.scan 2, Step.scan 1] initState).results 2 =
      some (RenderOutcome.success "d.png" (c8req 1).bytes "image/png") ∧
    (c8req 1).bytes ≠ (c8req 2).bytes := by
  constructor <;> decide

/-- C8 (amended): each request does create its own temporary directory,
but the working directory is communicated to the evaluation step through
the shared process-wide current directory; isolation therefore holds
when the chdir-exec-scan sequences of the two requests run serialized
(not interleaved): each request then receives exactly its own bytes. -/
theorem c8_serialized_isolation (r : Nat → Req)
    (hdir : (r 1).dir ≠ (r 2).dir)
    (h1 : extMatches ("." ++ (r 1).fmt) (r 1).fname = true)
    (h2 : extMatches ("." ++ (r 2).fmt) (r 2).fname = true) :
    ((runSched r [Step.chdir 1, Step.exec 1, Step.scan 1,
        Step.chdir 2, Step.exec 2, Step.scan 2] initState).results 1 =
      some (RenderOutcome.success (r 1).fname (r 1).bytes
        (get_mime_type ("." ++ (r 1).fmt)))) ∧
    ((runSched r [Step.chdir 1, Step.exec 1, Step.scan 1,
        Step.chdir 2, Step.exec 2, Step.scan 2] initState).results 2 =
      some (RenderOutcome.success (r 2).fname (r 2).bytes
        (get_mime_type ("." ++ (r 2).fmt)))) := by
  simp only [runSched, List.foldl_cons, List.foldl_nil, runStep, initState]
  simp [writeFile, Ne.symm hdir, findArtifact_singleton h1, findArtifact_singleton h2]

/-- Witness for C8 (amended): the two concrete requests, run serialized,
each receive their own bytes. -/
theorem c8_serialized_isolation_witness :
    ((runSched c8req [Step.chdir 1, Step.exec 1, Step.scan 1,
        Step.chdir 2, Step.exec 2, Step.scan 2] initState).results 1 =
      some (RenderOutcome.success (c8req 1).fname (c8req 1).bytes
        (get_mime_type ("." ++ (c8req 1).fmt)))) ∧
    ((runSched c8req [Step.chdir 1, Step.exec 1, Step.scan 1,
        Step.chdir 2, Step.exec 2, Step.scan 2] initState).results 2 =
      some (RenderOutcome.success (c8req 2).fname (c8req 2).bytes
        (get_mime_type ("." ++ (c8req 2).fmt)))) :=
  c8_serialized_isolation c8req (by decide) (by decide) (by decide)

end DiagramsMcp
